import Mathlib

/-!
Shallow embedding of the ExpenseTracker backend (src/models.js, src/routes.js).

The persistence store (MongoDB via Mongoose) is modelled as an explicit
`Store` value holding association lists from document ids to records.
Each HTTP handler becomes a pure function from a request structure and a
store to an HTTP status code paired with the resulting store.  Mongoose
sessions: every write inside a handler's `session` (documents saved with
`{ session }`, and documents fetched through `.session(session)` whose
`save()` reuses that bound session) is rolled back by `abortTransaction`,
so every failure path of a transactional handler returns the original
store unchanged.

JavaScript truthiness on request fields (`!x`) is modelled on `Option`
values: `none` (absent) is falsy, the empty string is falsy, the integer
`0` is falsy.  Monetary amounts are modelled as `Int` (the handlers only
add and subtract them).  `date` fields and the `recurrence` sub-document
are omitted: no handler reads them and no verified property mentions
them (they are passed through to storage unchanged).
-/

namespace ExpenseTracker

/-- JS truthiness of an optional string request field: `undefined` and
`""` are falsy. -/
def truthyS : Option String → Bool
  | none => false
  | some s => !(s == "")

/-- JS truthiness of an optional numeric request field: `undefined` and
`0` are falsy. -/
def truthyN : Option Int → Bool
  | none => false
  | some n => !(n == 0)

/-- `bankAccountSchema` of models.js: `accountNumber` (required, unique),
`balance` (defaults to 0). -/
structure BankAccount where
  accountNumber : String
  balance : Int
  deriving DecidableEq, Repr

/-- `transactionSchema` of models.js.  `description` is kept optional
because handlers may construct a Transaction without one (the
self-transfer handler); the schema's `required: true` is enforced by
`saveTransaction` below.  Account and debt references are document ids. -/
structure Transaction where
  description : Option String
  amount : Int
  category : Option String
  type : String
  sourceAccount : Option String
  destinationAccount : Option String
  debt : Option String
  deriving DecidableEq, Repr

/-- The `enum` of `transactionSchema.type`. -/
def transactionTypes : List String := ["income", "expense", "self-transfer", "debt"]

/-- Mongoose document validation for `transactionSchema`: `description`
required (for a String path this means present and non-empty), `type`
constrained to its enum.  `amount` is `required: true` but the model
stores it as a plain `Int`, set by every handler only after its own
truthiness validation has passed. -/
def validTransaction (t : Transaction) : Bool :=
  (match t.description with
   | some d => !(d == "")
   | none => false)
  && transactionTypes.contains t.type

/-- `debtSchema` of models.js after construction-time defaults, as stored:
the four numeric fields and `description` are `required: true`, so a
persisted Debt always carries them. -/
structure Debt where
  description : String
  totalAmount : Int
  settledAmount : Int
  pendingAmount : Int
  status : String
  type : String
  debtor : Option String
  debtorAccount : Option String
  creditorAccount : Option String
  creditor : Option String
  isRecurring : Bool
  deriving DecidableEq, Repr

/-- A Debt document as constructed by `new Debt({...})`, before Mongoose
validation runs at `save()`: required numeric fields may still be absent. -/
structure DebtDoc where
  description : Option String
  totalAmount : Option Int
  settledAmount : Option Int
  pendingAmount : Option Int
  status : String
  type : String
  debtor : Option String
  debtorAccount : Option String
  creditorAccount : Option String
  creditor : Option String
  isRecurring : Bool
  deriving DecidableEq, Repr

/-- Mongoose document validation for `debtSchema` at `save()`:
`description` required and non-empty, the numeric fields present,
`status` and `type` within their enums. -/
def saveDebt (doc : DebtDoc) : Option Debt :=
  match doc.description, doc.totalAmount, doc.settledAmount, doc.pendingAmount with
  | some d, some ta, some sa, some pa =>
    if d = "" then none
    else if !(["pending", "settled"].contains doc.status) then none
    else if !(["negative", "positive"].contains doc.type) then none
    else some
      { description := d, totalAmount := ta, settledAmount := sa, pendingAmount := pa
        status := doc.status, type := doc.type
        debtor := doc.debtor, debtorAccount := doc.debtorAccount
        creditorAccount := doc.creditorAccount, creditor := doc.creditor
        isRecurring := doc.isRecurring }
  | _, _, _, _ => none

/-- The persistence store: association lists from document id to record
for the two collections the handlers look records up in, and the list of
persisted transactions (appended to, never read back by any handler). -/
structure Store where
  accounts : List (String × BankAccount)
  transactions : List Transaction
  debts : List (String × Debt)
  deriving DecidableEq, Repr

/-- `Model.findById`: first association-list entry for the id. -/
def alookup {α : Type} : List (String × α) → String → Option α
  | [], _ => none
  | p :: t, id => if p.1 = id then some p.2 else alookup t id

/-- Saving a fetched-and-mutated document back: replace the record stored
under the id. -/
def aset {α : Type} : List (String × α) → String → α → List (String × α)
  | [], _, _ => []
  | p :: t, id, a => (if p.1 = id then (id, a) else p) :: aset t id a

/-- `transaction.save({ session })`: Mongoose validates the document and,
on success, appends it to the collection. -/
def saveTransaction (t : Transaction) (st : Store) : Option Store :=
  if validTransaction t then
    some { st with transactions := st.transactions ++ [t] }
  else none

/-- Request body of `POST /transactions/expense`. -/
structure ExpenseReq where
  description : Option String
  amount : Option Int
  category : Option String
  sourceAccount : Option String
  deriving DecidableEq, Repr

/-- Handler of `POST /transactions/expense` (routes.js lines 57-108):
validate truthiness of description, amount, sourceAccount; save a
Transaction{type: "expense"}; load the source account (abort 500 if
absent); decrement its balance by amount; commit.  Every failure aborts
the session, leaving the store as it was. -/
def postExpense (req : ExpenseReq) (st : Store) : Nat × Store :=
  match req.description, req.amount, req.sourceAccount with
  | some d, some a, some src =>
    if d = "" ∨ a = 0 ∨ src = "" then (500, st)
    else
      let tx : Transaction :=
        { description := some d, amount := a, category := req.category
          type := "expense", sourceAccount := some src
          destinationAccount := none, debt := none }
      match saveTransaction tx st with
      | none => (500, st)
      | some st1 =>
        match alookup st1.accounts src with
        | none => (500, st)
        | some acct =>
          (200, { st1 with
                   accounts := aset st1.accounts src
                     { acct with balance := acct.balance - a } })
  | _, _, _ => (500, st)

/-- Request body of `POST /transactions/income`. -/
structure IncomeReq where
  description : Option String
  amount : Option Int
  category : Option String
  destinationAccount : Option String
  deriving DecidableEq, Repr

/-- Handler of `POST /transactions/income` (routes.js lines 122-174):
symmetric to the expense handler, crediting the destination account. -/
def postIncome (req : IncomeReq) (st : Store) : Nat × Store :=
  match req.description, req.amount, req.destinationAccount with
  | some d, some a, some dst =>
    if d = "" ∨ a = 0 ∨ dst = "" then (500, st)
    else
      let tx : Transaction :=
        { description := some d, amount := a, category := req.category
          type := "income", sourceAccount := none
          destinationAccount := some dst, debt := none }
      match saveTransaction tx st with
      | none => (500, st)
      | some st1 =>
        match alookup st1.accounts dst with
        | none => (500, st)
        | some acct =>
          (200, { st1 with
                   accounts := aset st1.accounts dst
                     { acct with balance := acct.balance + a } })
  | _, _, _ => (500, st)

/-- Request body of `POST /transactions/self-transfer`.  `description` is
not validated by the handler (but `transactionSchema` still requires it
at save time). -/
structure SelfTransferReq where
  amount : Option Int
  sourceAccount : Option String
  destinationAccount : Option String
  description : Option String
  deriving DecidableEq, Repr

/-- Handler of `POST /transactions/self-transfer` (routes.js lines
188-249): validate amount, sourceAccount, destinationAccount; save a
Transaction{type: "self-transfer"} referencing both accounts; debit the
source, then credit the destination; any failure (either account absent,
or the schema rejecting a missing description) aborts the whole session. -/
def postSelfTransfer (req : SelfTransferReq) (st : Store) : Nat × Store :=
  match req.amount, req.sourceAccount, req.destinationAccount with
  | some a, some src, some dst =>
    if a = 0 ∨ src = "" ∨ dst = "" then (500, st)
    else
      let tx : Transaction :=
        { description := req.description, amount := a, category := none
          type := "self-transfer", sourceAccount := some src
          destinationAccount := some dst, debt := none }
      match saveTransaction tx st with
      | none => (500, st)
      | some st1 =>
        match alookup st1.accounts src with
        | none => (500, st)
        | some srcAcct =>
          let st2 := { st1 with
                        accounts := aset st1.accounts src
                          { srcAcct with balance := srcAcct.balance - a } }
          match alookup st2.accounts dst with
          | none => (500, st)
          | some dstAcct =>
            (200, { st2 with
                     accounts := aset st2.accounts dst
                       { dstAcct with balance := dstAcct.balance + a } })
  | _, _, _ => (500, st)

/-- Handler of `POST /bank-accounts` (routes.js lines 317-353): 400 if
`accountNumber` is falsy or some stored account already carries it;
otherwise persist a fresh account with balance 0 under the id the store
generates (`newId`). -/
def postBankAccounts (accountNumber : Option String) (newId : String)
    (st : Store) : Nat × Store :=
  match accountNumber with
  | none => (400, st)
  | some an =>
    if an = "" then (400, st)
    else if st.accounts.any (fun p => p.2.accountNumber == an) then (400, st)
    else (201, { st with
                  accounts := st.accounts ++
                    [(newId, { accountNumber := an, balance := 0 })] })

/-- Handler of `PATCH /bank-accounts/:accountId/update-balance`
(routes.js lines 364-394): 400 if `newBalance` is falsy (absent or 0 —
`isNaN` has no counterpart on `Int`); 404 if the account is absent;
otherwise overwrite the balance. -/
def patchUpdateBalance (accountId : String) (newBalance : Option Int)
    (st : Store) : Nat × Store :=
  match newBalance with
  | none => (400, st)
  | some b =>
    if b = 0 then (400, st)
    else
      match alookup st.accounts accountId with
      | none => (404, st)
      | some acct =>
        (200, { st with
                 accounts := aset st.accounts accountId
                   { acct with balance := b } })

/-- Request body of `POST /debts`. -/
structure DebtReq where
  description : Option String
  totalAmount : Option Int
  settledAmount : Option Int
  pendingAmount : Option Int
  status : Option String
  type : Option String
  debtor : Option String
  debtorAccount : Option String
  creditorAccount : Option String
  creditor : Option String
  isRecurring : Option Bool
  deriving DecidableEq, Repr

/-- `new Debt({...})` applied to a debt-creation request: construction
applies the schema defaults (`status: "pending"`, `type: "positive"`,
`isRecurring: false`) to absent fields. -/
def mkDebtDoc (req : DebtReq) : DebtDoc :=
  { description := req.description, totalAmount := req.totalAmount
    settledAmount := req.settledAmount, pendingAmount := req.pendingAmount
    status := req.status.getD "pending", type := req.type.getD "positive"
    debtor := req.debtor, debtorAccount := req.debtorAccount
    creditorAccount := req.creditorAccount, creditor := req.creditor
    isRecurring := req.isRecurring.getD false }

/-- Handler of `POST /debts` (routes.js lines 412-468): 400 if
description, totalAmount, status or type is falsy, or neither debtor nor
debtorAccount, or neither creditor nor creditorAccount, is truthy.
`settledAmount` and `pendingAmount` are NOT checked here; `save()` then
runs schema validation, and its failure surfaces as 500. -/
def postDebts (req : DebtReq) (newId : String) (st : Store) : Nat × Store :=
  if !(truthyS req.description && truthyN req.totalAmount
       && truthyS req.status && truthyS req.type
       && (truthyS req.debtor || truthyS req.debtorAccount)
       && (truthyS req.creditor || truthyS req.creditorAccount)) then
    (400, st)
  else
    match saveDebt (mkDebtDoc req) with
    | none => (500, st)
    | some debt => (201, { st with debts := st.debts ++ [(newId, debt)] })

/-- Handler of `PATCH /debts/:debtId/update-status` (routes.js lines
523-551): 400 if `newStatus` is falsy or outside {pending, settled}; 404
if the debt is absent; otherwise store exactly `newStatus`. -/
def patchUpdateStatus (debtId : String) (newStatus : Option String)
    (st : Store) : Nat × Store :=
  match newStatus with
  | none => (400, st)
  | some s =>
    if s = "" ∨ !(["pending", "settled"].contains s) then (400, st)
    else
      match alookup st.debts debtId with
      | none => (404, st)
      | some debt =>
        (200, { st with
                 debts := aset st.debts debtId { debt with status := s } })

/-- Request body of `POST /debts/:debtId/transactions`. -/
structure DebtTxReq where
  description : Option String
  amount : Option Int
  category : Option String
  type : Option String
  sourceAccount : Option String
  deriving DecidableEq, Repr

/-- Handler of `POST /debts/:debtId/transactions` (routes.js lines
569-641): validate description, amount, type, sourceAccount; load the
debt; save a Transaction with the caller-supplied `type` and `debt`
reference; pick the account to move by polarity — `debt.debtor` for a
"positive" debt, `debt.creditor` otherwise (`BankAccount.findById` on
that free-text field; `findById(undefined)` finds nothing); credit it by
amount for positive polarity, debit otherwise; increment the debt's
`totalAmount` and `pendingAmount` by amount; commit.  Every failure
aborts the session. -/
def postDebtTransaction (debtId : String) (req : DebtTxReq) (st : Store) :
    Nat × Store :=
  match req.description, req.amount, req.type, req.sourceAccount with
  | some d, some a, some ty, some src =>
    if d = "" ∨ a = 0 ∨ ty = "" ∨ src = "" then (500, st)
    else
      match alookup st.debts debtId with
      | none => (500, st)
      | some debt =>
        let isPositiveDebt := debt.type == "positive"
        let tx : Transaction :=
          { description := some d, amount := a, category := req.category
            type := ty, sourceAccount := some src
            destinationAccount := none, debt := some debtId }
        match saveTransaction tx st with
        | none => (500, st)
        | some st1 =>
          match (if isPositiveDebt then debt.debtor else debt.creditor) with
          | none => (500, st)
          | some acctId =>
            match alookup st1.accounts acctId with
            | none => (500, st)
            | some acct =>
              let st2 := { st1 with
                            accounts := aset st1.accounts acctId
                              { acct with balance :=
                                  acct.balance + (if isPositiveDebt then a else -a) } }
              (201, { st2 with
                       debts := aset st2.debts debtId
                         { debt with totalAmount := debt.totalAmount + a
                                     pendingAmount := debt.pendingAmount + a } })
  | _, _, _, _ => (500, st)

/-- Every store-writing operation of routes.js, for stating frame
properties that range over the whole surface.  The GET handlers are pure
reads and write nothing. -/
inductive Op where
  | expense (req : ExpenseReq)
  | income (req : IncomeReq)
  | selfTransfer (req : SelfTransferReq)
  | createAccount (accountNumber : Option String) (newId : String)
  | updateBalance (accountId : String) (newBalance : Option Int)
  | createDebt (req : DebtReq) (newId : String)
  | updateStatus (debtId : String) (newStatus : Option String)
  | debtTransaction (debtId : String) (req : DebtTxReq)
  deriving DecidableEq

/-- Dispatch an operation to its handler. -/
def Op.run : Op → Store → Nat × Store
  | .expense req => postExpense req
  | .income req => postIncome req
  | .selfTransfer req => postSelfTransfer req
  | .createAccount an newId => postBankAccounts an newId
  | .updateBalance accountId b => patchUpdateBalance accountId b
  | .createDebt req newId => postDebts req newId
  | .updateStatus debtId s => patchUpdateStatus debtId s
  | .debtTransaction debtId req => postDebtTransaction debtId req

/-! ## Store-model helper lemmas -/

theorem alookup_aset_self {α : Type} (l : List (String × α)) (id : String)
    (a b : α) (h : alookup l id = some b) :
    alookup (aset l id a) id = some a := by
  induction l with
  | nil => simp [alookup] at h
  | cons p t ih =>
    by_cases hk : p.1 = id
    · simp [alookup, aset, hk]
    · simp [alookup, aset, hk] at h ⊢
      exact ih h

theorem alookup_aset_ne {α : Type} (l : List (String × α)) (id id' : String)
    (a : α) (h : id ≠ id') :
    alookup (aset l id a) id' = alookup l id' := by
  induction l with
  | nil => simp [aset]
  | cons p t ih =>
    by_cases hk : p.1 = id
    · simp [alookup, aset, hk, h, Ne.symm h, ih]
    · simp [alookup, aset, hk, ih]

theorem alookup_aset_none {α : Type} (l : List (String × α)) (id id' : String)
    (a : α) (h : alookup l id' = none) :
    alookup (aset l id a) id' = none := by
  induction l with
  | nil => simpa [aset] using h
  | cons p t ih =>
    by_cases hk : p.1 = id
    · subst hk
      by_cases hk' : p.1 = id'
      · simp [alookup, hk'] at h
      · simp [alookup, aset, hk'] at h ⊢
        exact ih h
    · by_cases hk' : p.1 = id'
      · simp [alookup, hk'] at h
      · simp [alookup, aset, hk, hk'] at h ⊢
        exact ih h

theorem alookup_append_left {α : Type} (l l' : List (String × α)) (id : String)
    (b : α) (h : alookup l id = some b) :
    alookup (l ++ l') id = some b := by
  induction l with
  | nil => simp [alookup] at h
  | cons p t ih =>
    by_cases hk : p.1 = id
    · simpa [alookup, hk] using h
    · simp [alookup, hk] at h ⊢
      exact ih h

theorem saveTransaction_eq_some {t : Transaction} {st st' : Store}
    (h : saveTransaction t st = some st') :
    st' = { st with transactions := st.transactions ++ [t] } ∧
      validTransaction t = true := by
  unfold saveTransaction at h
  split at h
  · exact ⟨(Option.some.injEq _ _ ▸ h).symm, by assumption⟩
  · exact absurd h (by simp)

/-! ## Claim theorems -/

/-- Claim C1: for every expense, income, or self-transfer request in
which a referenced account (source or destination) does not exist in the
store, the operation fails with status 500 and leaves the store entirely
unchanged — no Transaction record is persisted and no account balance
changes. -/
theorem abort_on_missing_account_leaves_store (st : Store) :
    (∀ (req : ExpenseReq) (src : String), req.sourceAccount = some src →
      alookup st.accounts src = none → postExpense req st = (500, st)) ∧
    (∀ (req : IncomeReq) (dst : String), req.destinationAccount = some dst →
      alookup st.accounts dst = none → postIncome req st = (500, st)) ∧
    (∀ (req : SelfTransferReq) (acc : String),
      (req.sourceAccount = some acc ∨ req.destinationAccount = some acc) →
      alookup st.accounts acc = none → postSelfTransfer req st = (500, st)) := by
  refine ⟨?_, ?_, ?_⟩
  · rintro ⟨d, a, c, s⟩ src hs habs
    subst hs
    cases d with
    | none => rfl
    | some d =>
      cases a with
      | none => rfl
      | some a =>
        simp only [postExpense]
        split
        · rfl
        · split
          · rfl
          · next st1 hsave =>
            obtain ⟨rfl, _⟩ := saveTransaction_eq_some hsave
            simp [habs]
  · rintro ⟨d, a, c, s⟩ dst hs habs
    subst hs
    cases d with
    | none => rfl
    | some d =>
      cases a with
      | none => rfl
      | some a =>
        simp only [postIncome]
        split
        · rfl
        · split
          · rfl
          · next st1 hsave =>
            obtain ⟨rfl, _⟩ := saveTransaction_eq_some hsave
            simp [habs]
  · rintro ⟨a, s, t, d⟩ acc hacc habs
    cases a with
    | none => rfl
    | some a =>
      cases s with
      | none => rfl
      | some s =>
        cases t with
        | none => rfl
        | some t =>
          simp only [postSelfTransfer]
          split
          · rfl
          · split
            · rfl
            · next st1 hsave =>
              obtain ⟨rfl, _⟩ := saveTransaction_eq_some hsave
              rcases hacc with h | h
              · injection h with h
                subst h
                simp [habs]
              · injection h with h
                subst h
                cases hsrc : alookup st.accounts s with
                | none => simp [hsrc]
                | some srcAcct =>
                  simp only [hsrc]
                  simp only [alookup_aset_none _ _ _ _ habs]

/-- An empty store, for concrete instantiations. -/
def store0 : Store := { accounts := [], transactions := [], debts := [] }

/-- A store holding one account `A1` with balance 100, for concrete
instantiations. -/
def store1 : Store :=
  { accounts := [("A1", { accountNumber := "001", balance := 100 })]
    transactions := [], debts := [] }

/-- Concrete instantiation of `abort_on_missing_account_leaves_store`: an
expense against an account absent from the empty store returns 500 and
the empty store; a self-transfer whose destination `A2` is absent from
`store1` returns 500 and `store1` unchanged, although its source `A1`
exists. -/
theorem abort_on_missing_account_leaves_store_witness :
    postExpense { description := some "rent", amount := some 50,
                  category := none, sourceAccount := some "A9" } store0 =
      (500, store0) ∧
    postSelfTransfer { amount := some 20, sourceAccount := some "A1",
                       destinationAccount := some "A2",
                       description := some "move" } store1 =
      (500, store1) :=
  ⟨(abort_on_missing_account_leaves_store store0).1 _ "A9" rfl rfl,
   (abort_on_missing_account_leaves_store store1).2.2 _ "A2" (Or.inr rfl) rfl⟩

/-- Claim C3: for every valid expense posting the source account's
balance after commit equals its balance before minus amount; for every
valid income posting the destination account's balance after commit
equals its balance before plus amount; and in each case the transaction
collection grows by exactly one record whose type, amount, description
and account reference match the request. -/
theorem expense_income_move_balance_and_append_transaction
    (st : Store) (d : String) (a : Int) (c : Option String) (acc : String)
    (acct : BankAccount) (hd : d ≠ "") (ha : a ≠ 0) (hacc : acc ≠ "")
    (hfound : alookup st.accounts acc = some acct) :
    (let r := postExpense { description := some d, amount := some a,
                            category := c, sourceAccount := some acc } st
     r.1 = 200 ∧
     r.2.transactions = st.transactions ++
       [{ description := some d, amount := a, category := c,
          type := "expense", sourceAccount := some acc,
          destinationAccount := none, debt := none }] ∧
     alookup r.2.accounts acc = some { acct with balance := acct.balance - a }) ∧
    (let r := postIncome { description := some d, amount := some a,
                           category := c, destinationAccount := some acc } st
     r.1 = 200 ∧
     r.2.transactions = st.transactions ++
       [{ description := some d, amount := a, category := c,
          type := "income", sourceAccount := none,
          destinationAccount := some acc, debt := none }] ∧
     alookup r.2.accounts acc = some { acct with balance := acct.balance + a }) := by
  constructor
  · have hrun : postExpense { description := some d, amount := some a,
                              category := c, sourceAccount := some acc } st =
      (200, { st with
               transactions := st.transactions ++
                 [{ description := some d, amount := a, category := c,
                    type := "expense", sourceAccount := some acc,
                    destinationAccount := none, debt := none }]
               accounts := aset st.accounts acc
                 { acct with balance := acct.balance - a } }) := by
      simp only [postExpense]
      rw [if_neg (by simp [hd, ha, hacc])]
      simp [saveTransaction, validTransaction, transactionTypes, hd, hfound]
    refine ⟨by rw [hrun], by rw [hrun], ?_⟩
    rw [hrun]
    exact alookup_aset_self _ _ _ _ hfound
  · have hrun : postIncome { description := some d, amount := some a,
                             category := c, destinationAccount := some acc } st =
      (200, { st with
               transactions := st.transactions ++
                 [{ description := some d, amount := a, category := c,
                    type := "income", sourceAccount := none,
                    destinationAccount := some acc, debt := none }]
               accounts := aset st.accounts acc
                 { acct with balance := acct.balance + a } }) := by
      simp only [postIncome]
      rw [if_neg (by simp [hd, ha, hacc])]
      simp [saveTransaction, validTransaction, transactionTypes, hd, hfound]
    refine ⟨by rw [hrun], by rw [hrun], ?_⟩
    rw [hrun]
    exact alookup_aset_self _ _ _ _ hfound

/-- Concrete instantiation of
`expense_income_move_balance_and_append_transaction`: on `store1`
(account `A1`, balance 100), an expense of 40 leaves balance 60 and an
income of 40 leaves balance 140, each appending the matching record. -/
theorem expense_income_move_balance_witness :
    (let r := postExpense { description := some "food", amount := some 40,
                            category := none,
                            sourceAccount := some "A1" } store1
     r.1 = 200 ∧
     r.2.transactions = store1.transactions ++
       [{ description := some "food", amount := 40, category := none,
          type := "expense", sourceAccount := some "A1",
          destinationAccount := none, debt := none }] ∧
     alookup r.2.accounts "A1" = some { accountNumber := "001", balance := 60 }) ∧
    (let r := postIncome { description := some "food", amount := some 40,
                           category := none,
                           destinationAccount := some "A1" } store1
     r.1 = 200 ∧
     r.2.transactions = store1.transactions ++
       [{ description := some "food", amount := 40, category := none,
          type := "income", sourceAccount := none,
          destinationAccount := some "A1", debt := none }] ∧
     alookup r.2.accounts "A1" =
       some { accountNumber := "001", balance := 140 }) := by
  exact expense_income_move_balance_and_append_transaction store1 "food" 40
    none "A1" { accountNumber := "001", balance := 100 }
    (by decide) (by decide) (by decide) rfl

/-- Claim C4: for every successful self-transfer between two existing
(distinct) accounts, the source balance decreases by amount, the
destination balance increases by amount — hence their sum is conserved —
and the transaction collection grows by exactly one record referencing
both accounts. -/
theorem self_transfer_conserves_total_and_appends_transaction
    (st : Store) (d : String) (a : Int) (src dst : String)
    (sa da : BankAccount) (hd : d ≠ "") (ha : a ≠ 0)
    (hsrc : src ≠ "") (hdst : dst ≠ "") (hne : src ≠ dst)
    (hsa : alookup st.accounts src = some sa)
    (hda : alookup st.accounts dst = some da) :
    let r := postSelfTransfer { amount := some a, sourceAccount := some src,
                                destinationAccount := some dst,
                                description := some d } st
    r.1 = 200 ∧
    alookup r.2.accounts src = some { sa with balance := sa.balance - a } ∧
    alookup r.2.accounts dst = some { da with balance := da.balance + a } ∧
    (sa.balance - a) + (da.balance + a) = sa.balance + da.balance ∧
    r.2.transactions = st.transactions ++
      [{ description := some d, amount := a, category := none,
         type := "self-transfer", sourceAccount := some src,
         destinationAccount := some dst, debt := none }] := by
  have h2 : alookup (aset st.accounts src
      { sa with balance := sa.balance - a }) dst = some da := by
    rw [alookup_aset_ne _ _ _ _ hne]
    exact hda
  have hrun : postSelfTransfer { amount := some a, sourceAccount := some src,
                                 destinationAccount := some dst,
                                 description := some d } st =
    (200, { st with
             transactions := st.transactions ++
               [{ description := some d, amount := a, category := none,
                  type := "self-transfer", sourceAccount := some src,
                  destinationAccount := some dst, debt := none }]
             accounts := aset
               (aset st.accounts src { sa with balance := sa.balance - a })
               dst { da with balance := da.balance + a } }) := by
    simp only [postSelfTransfer]
    rw [if_neg (by simp [ha, hsrc, hdst])]
    simp [saveTransaction, validTransaction, transactionTypes, hd, hsa, h2]
  refine ⟨by rw [hrun], ?_, ?_, by ring, by rw [hrun]⟩
  · rw [hrun]
    show alookup (aset _ dst _) src = _
    rw [alookup_aset_ne _ _ _ _ (Ne.symm hne)]
    exact alookup_aset_self _ _ _ _ hsa
  · rw [hrun]
    exact alookup_aset_self _ _ _ _ h2

/-- A store holding accounts `A1` (balance 100) and `A2` (balance 5),
for concrete instantiations. -/
def store2 : Store :=
  { accounts := [("A1", { accountNumber := "001", balance := 100 }),
                 ("A2", { accountNumber := "002", balance := 5 })]
    transactions := [], debts := [] }

/-- Concrete instantiation of
`self_transfer_conserves_total_and_appends_transaction`: transferring 20
from `A1` to `A2` on `store2` yields balances 80 and 25 (sum conserved)
and one new self-transfer record. -/
theorem self_transfer_conserves_total_witness :
    let r := postSelfTransfer { amount := some 20, sourceAccount := some "A1",
                                destinationAccount := some "A2",
                                description := some "move" } store2
    r.1 = 200 ∧
    alookup r.2.accounts "A1" = some { accountNumber := "001", balance := 80 } ∧
    alookup r.2.accounts "A2" = some { accountNumber := "002", balance := 25 } ∧
    ((100 : Int) - 20) + (5 + 20) = 100 + 5 ∧
    r.2.transactions = store2.transactions ++
      [{ description := some "move", amount := 20, category := none,
         type := "self-transfer", sourceAccount := some "A1",
         destinationAccount := some "A2", debt := none }] := by
  exact self_transfer_conserves_total_and_appends_transaction store2 "move" 20
    "A1" "A2" { accountNumber := "001", balance := 100 }
    { accountNumber := "002", balance := 5 }
    (by decide) (by decide) (by decide) (by decide) (by decide) rfl rfl

/-- Claim C2: a successful debt transaction against a debt of type
"positive" increases by amount the balance of the account referenced by
the debt's `debtor` field; against a debt of type "negative" it
decreases by amount the balance of the account referenced by the debt's
`creditor` field; and in both cases the debt's `totalAmount` and
`pendingAmount` each increase by exactly amount. -/
theorem debt_transaction_polarity_updates
    (st : Store) (debtId : String) (debt : Debt) (d : String) (a : Int)
    (c : Option String) (ty src acctId : String) (acct : BankAccount)
    (hdebt : alookup st.debts debtId = some debt)
    (hd : d ≠ "") (ha : a ≠ 0)
    (hty : transactionTypes.contains ty = true) (hsrc : src ≠ "")
    (hacct : alookup st.accounts acctId = some acct) :
    (debt.type = "positive" → debt.debtor = some acctId →
      let r := postDebtTransaction debtId
        { description := some d, amount := some a, category := c,
          type := some ty, sourceAccount := some src } st
      r.1 = 201 ∧
      alookup r.2.accounts acctId =
        some { acct with balance := acct.balance + a } ∧
      alookup r.2.debts debtId =
        some { debt with totalAmount := debt.totalAmount + a,
                         pendingAmount := debt.pendingAmount + a }) ∧
    (debt.type = "negative" → debt.creditor = some acctId →
      let r := postDebtTransaction debtId
        { description := some d, amount := some a, category := c,
          type := some ty, sourceAccount := some src } st
      r.1 = 201 ∧
      alookup r.2.accounts acctId =
        some { acct with balance := acct.balance - a } ∧
      alookup r.2.debts debtId =
        some { debt with totalAmount := debt.totalAmount + a,
                         pendingAmount := debt.pendingAmount + a }) := by
  have hty' : ty ≠ "" := by
    rintro rfl
    simp [transactionTypes] at hty
  have hmem : ty ∈ transactionTypes := by simpa using hty
  constructor
  · intro htype hdebtor
    have hrun : postDebtTransaction debtId
        { description := some d, amount := some a, category := c,
          type := some ty, sourceAccount := some src } st =
      (201, { st with
               transactions := st.transactions ++
                 [{ description := some d, amount := a, category := c,
                    type := ty, sourceAccount := some src,
                    destinationAccount := none, debt := some debtId }]
               accounts := aset st.accounts acctId
                 { acct with balance := acct.balance + a }
               debts := aset st.debts debtId
                 { debt with totalAmount := debt.totalAmount + a,
                             pendingAmount := debt.pendingAmount + a } }) := by
      simp only [postDebtTransaction]
      rw [if_neg (by simp [hd, ha, hty', hsrc])]
      simp [hdebt, saveTransaction, validTransaction, hd, hmem, htype,
            hdebtor, hacct]
    refine ⟨by rw [hrun], ?_, ?_⟩
    · rw [hrun]
      exact alookup_aset_self _ _ _ _ hacct
    · rw [hrun]
      exact alookup_aset_self _ _ _ _ hdebt
  · intro htype hcreditor
    have hrun : postDebtTransaction debtId
        { description := some d, amount := some a, category := c,
          type := some ty, sourceAccount := some src } st =
      (201, { st with
               transactions := st.transactions ++
                 [{ description := some d, amount := a, category := c,
                    type := ty, sourceAccount := some src,
                    destinationAccount := none, debt := some debtId }]
               accounts := aset st.accounts acctId
                 { acct with balance := acct.balance - a }
               debts := aset st.debts debtId
                 { debt with totalAmount := debt.totalAmount + a,
                             pendingAmount := debt.pendingAmount + a } }) := by
      simp only [postDebtTransaction]
      rw [if_neg (by simp [hd, ha, hty', hsrc])]
      simp [hdebt, saveTransaction, validTransaction, hd, hmem, htype,
            hcreditor, hacct, Int.sub_eq_add_neg]
    refine ⟨by rw [hrun], ?_, ?_⟩
    · rw [hrun]
      exact alookup_aset_self _ _ _ _ hacct
    · rw [hrun]
      exact alookup_aset_self _ _ _ _ hdebt

/-- A positive-type debt whose `debtor` field holds the id `A1`. -/
def debtPos : Debt :=
  { description := "loan out", totalAmount := 10, settledAmount := 0
    pendingAmount := 10, status := "pending", type := "positive"
    debtor := some "A1", debtorAccount := none, creditorAccount := none
    creditor := some "Bob", isRecurring := false }

/-- A negative-type debt whose `creditor` field holds the id `A1`. -/
def debtNeg : Debt :=
  { description := "loan in", totalAmount := 10, settledAmount := 0
    pendingAmount := 10, status := "pending", type := "negative"
    debtor := some "Ann", debtorAccount := none, creditorAccount := none
    creditor := some "A1", isRecurring := false }

/-- A store with one account `A1` (balance 100) and the two debts `D1`
(positive) and `D2` (negative), for concrete instantiations. -/
def storeD : Store :=
  { accounts := [("A1", { accountNumber := "001", balance := 100 })]
    transactions := []
    debts := [("D1", debtPos), ("D2", debtNeg)] }

/-- Concrete instantiation of `debt_transaction_polarity_updates`: on
`storeD`, a debt transaction of 7 against the positive debt `D1` raises
`A1` to 107 and both debt totals to 17; against the negative debt `D2`
it lowers `A1` to 93 under the same totals update. -/
theorem debt_transaction_polarity_witness :
    (let r := postDebtTransaction "D1"
        { description := some "pay", amount := some 7, category := none,
          type := some "debt", sourceAccount := some "A1" } storeD
     r.1 = 201 ∧
     alookup r.2.accounts "A1" =
       some { accountNumber := "001", balance := 107 } ∧
     alookup r.2.debts "D1" =
       some { debtPos with totalAmount := 17, pendingAmount := 17 }) ∧
    (let r := postDebtTransaction "D2"
        { description := some "pay", amount := some 7, category := none,
          type := some "debt", sourceAccount := some "A1" } storeD
     r.1 = 201 ∧
     alookup r.2.accounts "A1" =
       some { accountNumber := "001", balance := 93 } ∧
     alookup r.2.debts "D2" =
       some { debtNeg with totalAmount := 17, pendingAmount := 17 }) := by
  constructor
  · exact (debt_transaction_polarity_updates storeD "D1" debtPos "pay" 7 none
      "debt" "A1" "A1" { accountNumber := "001", balance := 100 }
      rfl (by decide) (by decide) (by decide) (by decide) rfl).1 rfl rfl
  · exact (debt_transaction_polarity_updates storeD "D2" debtNeg "pay" 7 none
      "debt" "A1" "A1" { accountNumber := "001", balance := 100 }
      rfl (by decide) (by decide) (by decide) (by decide) rfl).2 rfl rfl

/-! ## Frame lemmas: which collections each handler can touch -/

theorem postExpense_debts_eq (req : ExpenseReq) (st : Store) :
    (postExpense req st).2.debts = st.debts := by
  obtain ⟨d, a, c, s⟩ := req
  cases d with
  | none => rfl
  | some d =>
    cases a with
    | none => rfl
    | some a =>
      cases s with
      | none => rfl
      | some s =>
        simp only [postExpense]
        split
        · rfl
        · split
          · rfl
          · next st1 hsave =>
            obtain ⟨rfl, _⟩ := saveTransaction_eq_some hsave
            split <;> rfl

theorem postIncome_debts_eq (req : IncomeReq) (st : Store) :
    (postIncome req st).2.debts = st.debts := by
  obtain ⟨d, a, c, s⟩ := req
  cases d with
  | none => rfl
  | some d =>
    cases a with
    | none => rfl
    | some a =>
      cases s with
      | none => rfl
      | some s =>
        simp only [postIncome]
        split
        · rfl
        · split
          · rfl
          · next st1 hsave =>
            obtain ⟨rfl, _⟩ := saveTransaction_eq_some hsave
            split <;> rfl

theorem postSelfTransfer_debts_eq (req : SelfTransferReq) (st : Store) :
    (postSelfTransfer req st).2.debts = st.debts := by
  obtain ⟨a, s, t, d⟩ := req
  cases a with
  | none => rfl
  | some a =>
    cases s with
    | none => rfl
    | some s =>
      cases t with
      | none => rfl
      | some t =>
        simp only [postSelfTransfer]
        split
        · rfl
        · split
          · rfl
          · next st1 hsave =>
            obtain ⟨rfl, _⟩ := saveTransaction_eq_some hsave
            split
            · rfl
            · split <;> rfl

theorem postBankAccounts_frame (an : Option String) (newId : String)
    (st : Store) :
    (postBankAccounts an newId st).2.transactions = st.transactions ∧
    (postBankAccounts an newId st).2.debts = st.debts := by
  cases an with
  | none => exact ⟨rfl, rfl⟩
  | some an =>
    simp only [postBankAccounts]
    split
    · exact ⟨rfl, rfl⟩
    · split <;> exact ⟨rfl, rfl⟩

theorem patchUpdateBalance_frame (accountId : String) (b : Option Int)
    (st : Store) :
    (patchUpdateBalance accountId b st).2.transactions = st.transactions ∧
    (patchUpdateBalance accountId b st).2.debts = st.debts := by
  cases b with
  | none => exact ⟨rfl, rfl⟩
  | some b =>
    simp only [patchUpdateBalance]
    split
    · exact ⟨rfl, rfl⟩
    · split <;> exact ⟨rfl, rfl⟩

theorem postDebts_frame (req : DebtReq) (newId : String) (st : Store) :
    (postDebts req newId st).2.transactions = st.transactions ∧
    (postDebts req newId st).2.accounts = st.accounts := by
  simp only [postDebts]
  split
  · exact ⟨rfl, rfl⟩
  · split <;> exact ⟨rfl, rfl⟩

theorem patchUpdateStatus_frame (debtId : String) (s : Option String)
    (st : Store) :
    (patchUpdateStatus debtId s st).2.transactions = st.transactions ∧
    (patchUpdateStatus debtId s st).2.accounts = st.accounts := by
  cases s with
  | none => exact ⟨rfl, rfl⟩
  | some s =>
    simp only [patchUpdateStatus]
    split
    · exact ⟨rfl, rfl⟩
    · split <;> exact ⟨rfl, rfl⟩

theorem postExpense_new_transaction (req : ExpenseReq) (st : Store)
    (tx : Transaction) (h : tx ∈ (postExpense req st).2.transactions) :
    tx ∈ st.transactions ∨ tx.amount ≠ 0 := by
  obtain ⟨d, a, c, s⟩ := req
  cases d with
  | none => exact Or.inl h
  | some d =>
    cases a with
    | none => exact Or.inl h
    | some a =>
      cases s with
      | none => exact Or.inl h
      | some s =>
        simp only [postExpense] at h
        split at h
        · exact Or.inl h
        · next hcond =>
          split at h
          · exact Or.inl h
          · next st1 hsave =>
            obtain ⟨rfl, _⟩ := saveTransaction_eq_some hsave
            split at h
            · exact Or.inl h
            · simp only [List.mem_append, List.mem_singleton] at h
              rcases h with h | rfl
              · exact Or.inl h
              · push_neg at hcond
                exact Or.inr hcond.2.1

theorem postIncome_new_transaction (req : IncomeReq) (st : Store)
    (tx : Transaction) (h : tx ∈ (postIncome req st).2.transactions) :
    tx ∈ st.transactions ∨ tx.amount ≠ 0 := by
  obtain ⟨d, a, c, s⟩ := req
  cases d with
  | none => exact Or.inl h
  | some d =>
    cases a with
    | none => exact Or.inl h
    | some a =>
      cases s with
      | none => exact Or.inl h
      | some s =>
        simp only [postIncome] at h
        split at h
        · exact Or.inl h
        · next hcond =>
          split at h
          · exact Or.inl h
          · next st1 hsave =>
            obtain ⟨rfl, _⟩ := saveTransaction_eq_some hsave
            split at h
            · exact Or.inl h
            · simp only [List.mem_append, List.mem_singleton] at h
              rcases h with h | rfl
              · exact Or.inl h
              · push_neg at hcond
                exact Or.inr hcond.2.1

theorem postSelfTransfer_new_transaction (req : SelfTransferReq) (st : Store)
    (tx : Transaction) (h : tx ∈ (postSelfTransfer req st).2.transactions) :
    tx ∈ st.transactions ∨ tx.amount ≠ 0 := by
  obtain ⟨a, s, t, d⟩ := req
  cases a with
  | none => exact Or.inl h
  | some a =>
    cases s with
    | none => exact Or.inl h
    | some s =>
      cases t with
      | none => exact Or.inl h
      | some t =>
        simp only [postSelfTransfer] at h
        split at h
        · exact Or.inl h
        · next hcond =>
          split at h
          · exact Or.inl h
          · next st1 hsave =>
            obtain ⟨rfl, _⟩ := saveTransaction_eq_some hsave
            split at h
            · exact Or.inl h
            · split at h
              · exact Or.inl h
              · simp only [List.mem_append, List.mem_singleton] at h
                rcases h with h | rfl
                · exact Or.inl h
                · push_neg at hcond
                  exact Or.inr hcond.1

theorem postDebtTransaction_new_transaction (debtId : String)
    (req : DebtTxReq) (st : Store) (tx : Transaction)
    (h : tx ∈ (postDebtTransaction debtId req st).2.transactions) :
    tx ∈ st.transactions ∨ tx.amount ≠ 0 := by
  obtain ⟨d, a, c, t, s⟩ := req
  cases d with
  | none => exact Or.inl h
  | some d =>
    cases a with
    | none => exact Or.inl h
    | some a =>
      cases t with
      | none => exact Or.inl h
      | some t =>
        cases s with
        | none => exact Or.inl h
        | some s =>
          simp only [postDebtTransaction] at h
          split at h
          · exact Or.inl h
          · next hcond =>
            split at h
            · exact Or.inl h
            · split at h
              · exact Or.inl h
              · next st1 hsave =>
                obtain ⟨rfl, _⟩ := saveTransaction_eq_some hsave
                split at h
                · exact Or.inl h
                · split at h
                  · exact Or.inl h
                  · simp only [List.mem_append, List.mem_singleton] at h
                    rcases h with h | rfl
                    · exact Or.inl h
                    · push_neg at hcond
                      exact Or.inr hcond.2.1

/-- Claim C5 counterexample: the expense handler's truthiness validation
(`!amount`) only rejects amount 0, so a request with amount -5 succeeds
(status 200), persists a Transaction whose amount is ≤ 0, and moves the
source balance UP from 100 to 105 — opposite to the direction the
"expense" type implies. -/
theorem negative_amount_transaction_stored :
    let r := postExpense { description := some "refund", amount := some (-5),
                           category := none,
                           sourceAccount := some "A1" } store1
    r.1 = 200 ∧
    r.2.transactions.any (fun tx => decide (tx.amount ≤ 0)) = true ∧
    alookup r.2.accounts "A1" =
      some { accountNumber := "001", balance := 105 } := by
  decide

/-- Claim C5, amended: every Transaction record persisted by any
operation has a NONZERO amount (the truthiness validation rejects amount
0 and absent amounts), but not necessarily a positive one — negative
amounts are accepted and move the balance opposite to the direction the
type implies. -/
theorem stored_transaction_amount_nonzero (op : Op) (st : Store)
    (tx : Transaction) (h : tx ∈ (op.run st).2.transactions) :
    tx ∈ st.transactions ∨ tx.amount ≠ 0 := by
  cases op with
  | expense req => exact postExpense_new_transaction req st tx h
  | income req => exact postIncome_new_transaction req st tx h
  | selfTransfer req => exact postSelfTransfer_new_transaction req st tx h
  | createAccount an newId =>
    simp only [Op.run] at h
    rw [(postBankAccounts_frame an newId st).1] at h
    exact Or.inl h
  | updateBalance accountId b =>
    simp only [Op.run] at h
    rw [(patchUpdateBalance_frame accountId b st).1] at h
    exact Or.inl h
  | createDebt req newId =>
    simp only [Op.run] at h
    rw [(postDebts_frame req newId st).1] at h
    exact Or.inl h
  | updateStatus debtId s =>
    simp only [Op.run] at h
    rw [(patchUpdateStatus_frame debtId s st).1] at h
    exact Or.inl h
  | debtTransaction debtId req =>
    exact postDebtTransaction_new_transaction debtId req st tx h

/-- Concrete instantiation of `stored_transaction_amount_nonzero`: the
record stored by a successful expense of 40 on `store1` has a nonzero
amount. -/
theorem stored_transaction_amount_nonzero_witness :
    ({ description := some "food", amount := 40, category := none,
       type := "expense", sourceAccount := some "A1",
       destinationAccount := none, debt := none } : Transaction)
        ∈ store1.transactions ∨
    ({ description := some "food", amount := 40, category := none,
       type := "expense", sourceAccount := some "A1",
       destinationAccount := none, debt := none } : Transaction).amount ≠ 0 :=
  stored_transaction_amount_nonzero
    (Op.expense { description := some "food", amount := some 40,
                  category := none, sourceAccount := some "A1" })
    store1 _ (by decide)

/-- Claim C8: no operation other than update-status changes a stored
Debt's status: every other operation maps a debt stored under an id to a
debt with the same status — in particular a successful debt transaction
leaves the status unchanged regardless of the resulting `pendingAmount`
(there is no automatic transition to "settled"). -/
theorem only_update_status_changes_debt_status (op : Op) (st : Store)
    (hop : ∀ debtId newStatus, op ≠ Op.updateStatus debtId newStatus)
    (id : String) (debt : Debt) (h : alookup st.debts id = some debt) :
    ∃ debt', alookup (op.run st).2.debts id = some debt' ∧
      debt'.status = debt.status := by
  cases op with
  | expense req =>
    refine ⟨debt, ?_, rfl⟩
    simp only [Op.run]
    rw [postExpense_debts_eq]
    exact h
  | income req =>
    refine ⟨debt, ?_, rfl⟩
    simp only [Op.run]
    rw [postIncome_debts_eq]
    exact h
  | selfTransfer req =>
    refine ⟨debt, ?_, rfl⟩
    simp only [Op.run]
    rw [postSelfTransfer_debts_eq]
    exact h
  | createAccount an newId =>
    refine ⟨debt, ?_, rfl⟩
    simp only [Op.run]
    rw [(postBankAccounts_frame an newId st).2]
    exact h
  | updateBalance accountId b =>
    refine ⟨debt, ?_, rfl⟩
    simp only [Op.run]
    rw [(patchUpdateBalance_frame accountId b st).2]
    exact h
  | createDebt req newId =>
    refine ⟨debt, ?_, rfl⟩
    simp only [Op.run, postDebts]
    split
    · exact h
    · split
      · exact h
      · exact alookup_append_left _ _ _ _ h
  | updateStatus debtId s => exact absurd rfl (hop debtId s)
  | debtTransaction debtId req =>
    obtain ⟨d, a, c, t, s⟩ := req
    cases d with
    | none => exact ⟨debt, h, rfl⟩
    | some d =>
      cases a with
      | none => exact ⟨debt, h, rfl⟩
      | some a =>
        cases t with
        | none => exact ⟨debt, h, rfl⟩
        | some t =>
          cases s with
          | none => exact ⟨debt, h, rfl⟩
          | some s =>
            simp only [Op.run, postDebtTransaction]
            split
            · exact ⟨debt, h, rfl⟩
            · split
              · exact ⟨debt, h, rfl⟩
              · next debtF hdebtF =>
                split
                · exact ⟨debt, h, rfl⟩
                · next st1 hsave =>
                  obtain ⟨rfl, _⟩ := saveTransaction_eq_some hsave
                  split
                  · exact ⟨debt, h, rfl⟩
                  · split
                    · exact ⟨debt, h, rfl⟩
                    · by_cases hid : debtId = id
                      · subst hid
                        rw [h] at hdebtF
                        injection hdebtF with hdebtF
                        subst hdebtF
                        exact ⟨_, alookup_aset_self _ _ _ _ h, rfl⟩
                      · refine ⟨debt, ?_, rfl⟩
                        rw [alookup_aset_ne _ _ _ _ hid]
                        exact h

/-- A positive-type pending debt whose `pendingAmount` is -7, so that a
debt transaction of 7 drives it to exactly 0. -/
def debtZ : Debt :=
  { description := "almost settled", totalAmount := 7, settledAmount := 14
    pendingAmount := -7, status := "pending", type := "positive"
    debtor := some "A1", debtorAccount := none, creditorAccount := none
    creditor := some "Bob", isRecurring := false }

/-- A store with account `A1` and debt `D1` = `debtZ`, for concrete
instantiations. -/
def storeZ : Store :=
  { accounts := [("A1", { accountNumber := "001", balance := 100 })]
    transactions := [], debts := [("D1", debtZ)] }

/-- Concrete instantiation of `only_update_status_changes_debt_status`:
a debt transaction of 7 against `D1` on `storeZ` leaves the status
"pending", even though it drives `pendingAmount` to exactly 0. -/
theorem only_update_status_changes_debt_status_witness :
    (∃ debt', alookup ((Op.debtTransaction "D1"
        { description := some "pay", amount := some 7, category := none,
          type := some "debt", sourceAccount := some "A1" }).run storeZ).2.debts
        "D1" = some debt' ∧ debt'.status = "pending") ∧
    alookup ((Op.debtTransaction "D1"
        { description := some "pay", amount := some 7, category := none,
          type := some "debt", sourceAccount := some "A1" }).run storeZ).2.debts
        "D1" = some { debtZ with totalAmount := 14, pendingAmount := 0 } :=
  ⟨only_update_status_changes_debt_status _ storeZ
      (fun _ _ hcontra => Op.noConfusion hcontra) "D1" debtZ rfl,
   by decide⟩

/-- Claim C6: creating a bank account whose `accountNumber` is already
carried by some stored account is rejected with the 400 conflict outcome
and the store is unchanged; creating one with a fresh (truthy) number
appends exactly one account record whose balance is 0. -/
theorem account_creation_unique_number_and_zero_balance
    (st : Store) (newId : String) :
    (∀ an, st.accounts.any (fun p => p.2.accountNumber == an) = true →
      postBankAccounts (some an) newId st = (400, st)) ∧
    (∀ an, an ≠ "" →
      st.accounts.any (fun p => p.2.accountNumber == an) = false →
      postBankAccounts (some an) newId st =
        (201, { st with accounts := st.accounts ++
                  [(newId, { accountNumber := an, balance := 0 })] })) := by
  constructor
  · intro an hdup
    simp only [postBankAccounts]
    split
    · rfl
    · simp [hdup]
  · intro an han hfresh
    simp only [postBankAccounts]
    rw [if_neg han]
    simp [hfresh]

/-- Concrete instantiation of
`account_creation_unique_number_and_zero_balance` on `store1`: the
duplicate number "001" is rejected leaving the store unchanged, and the
fresh number "002" creates an account with balance 0. -/
theorem account_creation_witness :
    postBankAccounts (some "001") "A7" store1 = (400, store1) ∧
    postBankAccounts (some "002") "A7" store1 =
      (201, { store1 with accounts := store1.accounts ++
                [("A7", { accountNumber := "002", balance := 0 })] }) :=
  ⟨(account_creation_unique_number_and_zero_balance store1 "A7").1 "001"
      (by decide),
   (account_creation_unique_number_and_zero_balance store1 "A7").2 "002"
      (by decide) (by decide)⟩

/-- Claim C7: an update-status request with a value outside
{pending, settled} is rejected with 400 and the store is unchanged; a
value inside the set, on an existing debt, makes the stored status
exactly that value. -/
theorem update_status_restricted_and_exact (st : Store) (debtId : String) :
    (∀ s, s ∉ (["pending", "settled"] : List String) →
      patchUpdateStatus debtId (some s) st = (400, st)) ∧
    (∀ s debt, s ∈ (["pending", "settled"] : List String) →
      alookup st.debts debtId = some debt →
      patchUpdateStatus debtId (some s) st =
        (200,
          { st with
            debts := aset st.debts debtId { debt with status := s } }) ∧
      alookup (patchUpdateStatus debtId (some s) st).2.debts debtId =
        some { debt with status := s }) := by
  constructor
  · intro s hs
    simp only [patchUpdateStatus]
    rw [if_pos (Or.inr (by simpa using hs))]
  · intro s debt hsin hdebt
    have hrun : patchUpdateStatus debtId (some s) st =
        (200,
          { st with
            debts := aset st.debts debtId { debt with status := s } }) := by
      simp only [List.mem_cons, List.mem_singleton] at hsin
      rcases hsin with rfl | hsin
      · simp only [patchUpdateStatus]
        rw [if_neg (by decide)]
        simp [hdebt]
      · rcases hsin with rfl | hsin
        · simp only [patchUpdateStatus]
          rw [if_neg (by decide)]
          simp [hdebt]
        · simp at hsin
    refine ⟨hrun, ?_⟩
    rw [hrun]
    exact alookup_aset_self _ _ _ _ hdebt

/-- Concrete instantiation of `update_status_restricted_and_exact` on
`storeD`: the value "paid" is rejected leaving the store unchanged, and
the value "settled" on debt `D1` is stored exactly. -/
theorem update_status_witness :
    patchUpdateStatus "D1" (some "paid") storeD = (400, storeD) ∧
    (patchUpdateStatus "D1" (some "settled") storeD =
        (200,
          { storeD with
            debts := aset storeD.debts "D1" { debtPos with status := "settled" } }) ∧
      alookup (patchUpdateStatus "D1" (some "settled") storeD).2.debts "D1" =
        some { debtPos with status := "settled" }) :=
  ⟨(update_status_restricted_and_exact storeD "D1").1 "paid" (by decide),
   (update_status_restricted_and_exact storeD "D1").2 "settled" debtPos
      (by decide) rfl⟩

/-- Claim C9: an update-balance request with newBalance 0 is rejected
with 400 (the `!newBalance` truthiness check treats 0 as missing) and
the store is unchanged, so no account balance can be set to exactly 0
through this endpoint: any account looked up after a successful (200)
update-balance run has a nonzero balance. -/
theorem update_balance_rejects_zero (st : Store) (accountId : String) :
    patchUpdateBalance accountId (some 0) st = (400, st) ∧
    (∀ (b : Int) (st' : Store) (acct : BankAccount),
      patchUpdateBalance accountId (some b) st = (200, st') →
      alookup st'.accounts accountId = some acct → acct.balance ≠ 0) := by
  constructor
  · rfl
  · intro b st' acct hrun hlook
    simp only [patchUpdateBalance] at hrun
    split at hrun
    · simp at hrun
    · next hb =>
      split at hrun
      · simp at hrun
      · next acct0 hacct0 =>
        injection hrun with h1 h2
        subst h2
        rw [alookup_aset_self _ _ _ _ hacct0] at hlook
        injection hlook with hlook
        subst hlook
        exact hb

/-- Concrete instantiation of `update_balance_rejects_zero` on `store1`:
setting `A1` to 0 is rejected, while after the accepted update to 55 the
looked-up account's balance 55 is nonzero. -/
theorem update_balance_rejects_zero_witness :
    patchUpdateBalance "A1" (some 0) store1 = (400, store1) ∧
    ({ accountNumber := "001", balance := 55 } : BankAccount).balance ≠ 0 :=
  ⟨(update_balance_rejects_zero store1 "A1").1,
   (update_balance_rejects_zero store1 "A1").2 55
      { accounts := [("A1", { accountNumber := "001", balance := 55 })]
        transactions := [], debts := [] }
      { accountNumber := "001", balance := 55 } rfl rfl⟩

/-- Claim C10: a debt-creation request that passes the handler's field
validation (description, totalAmount, status, type, debtor/creditor
presence) but omits `settledAmount` or `pendingAmount` is not rejected
with 400; it fails at the `save()` schema validation, producing 500 and
leaving the store unchanged (no Debt record created). -/
theorem debt_creation_missing_amounts_fails_at_save
    (req : DebtReq) (newId : String) (st : Store)
    (hv : (truthyS req.description && truthyN req.totalAmount
        && truthyS req.status && truthyS req.type
        && (truthyS req.debtor || truthyS req.debtorAccount)
        && (truthyS req.creditor || truthyS req.creditorAccount)) = true)
    (hmiss : req.settledAmount = none ∨ req.pendingAmount = none) :
    postDebts req newId st = (500, st) := by
  obtain ⟨de, ta, sa, pa, stt, ty, dr, dra, cra, cr, ir⟩ := req
  have hnone : saveDebt (mkDebtDoc ⟨de, ta, sa, pa, stt, ty, dr, dra, cra,
      cr, ir⟩) = none := by
    rcases hmiss with hm | hm
    · cases hm
      cases de <;> cases ta <;> cases pa <;> rfl
    · cases hm
      cases de <;> cases ta <;> cases sa <;> rfl
  simp only [postDebts, hv, Bool.not_true, Bool.false_eq_true, if_false,
    hnone]

/-- Concrete instantiation of
`debt_creation_missing_amounts_fails_at_save`: a request that passes
field validation but carries neither `settledAmount` nor `pendingAmount`
yields 500 and leaves the empty store unchanged. -/
theorem debt_creation_missing_amounts_witness :
    postDebts { description := some "iou", totalAmount := some 10,
                settledAmount := none, pendingAmount := none,
                status := some "pending", type := some "positive",
                debtor := some "Ann", debtorAccount := none,
                creditorAccount := none, creditor := some "Bob",
                isRecurring := none } "D9" store0 = (500, store0) :=
  debt_creation_missing_amounts_fails_at_save _ "D9" store0 (by decide)
    (Or.inl rfl)

end ExpenseTracker
